import Mathlib

/-!
Verification of the LDtk-to-TSCN converter's tile transcoding core.

The definitions below are a shallow embedding of the JavaScript sources:
  * `src/js/utils.js`          (class `Utils`)
  * `src/js/tilesetMapper.js`  (class `TilesetMapper`)
  * `src/js/tscnGenerator.js`  (class `TSCNGenerator`)
  * `ldtkParser.js`            (class `LDtkParser`)

JavaScript numbers are modelled as `Int` (all quantities involved are
integers within double precision); `Math.floor(a / b)` for positive `b`
is `Int.fdiv`.  Possibly-missing object fields are `Option`s.  JS `Map`s
with string keys of the shape `"x:y"` built from integers are modelled
as association lists keyed by the integer tuples (the string rendering
of an integer tuple is injective, so lookups agree).
-/

/-- Flip flags parsed from the LDtk `f` bitmask
(`Utils.extractFlipFlags`, src/js/utils.js lines 91-96). -/
structure FlipFlags where
  flipH : Bool
  flipV : Bool
deriving DecidableEq, Repr

/-- Embeds `Utils.pixelToGrid` (src/js/utils.js lines 77-79): floor division of
both pixel coordinates by the grid size; the source's default argument
for `gridSize` is 16. -/
def pixelToGrid (px : Int × Int) (gridSize : Int := 16) : Int × Int :=
  (px.1.fdiv gridSize, px.2.fdiv gridSize)

/-- Embeds `Utils.gridToGodotPosition` (src/js/utils.js lines 84-86):
`gridY * 65536 + gridX`. -/
def gridToGodotPosition (gridX gridY : Int) : Int :=
  gridY * 65536 + gridX

/-- Embeds `Utils.extractFlipFlags` (src/js/utils.js lines 91-96): bit 0 is the
horizontal flip, bit 1 the vertical flip. -/
def extractFlipFlags (f : Int) : FlipFlags :=
  { flipH := Int.land f 1 != 0, flipV := Int.land f 2 != 0 }

/-- The tileset configuration record stored in
`TilesetMapper.tilesetMappings` (src/js/tilesetMapper.js lines 16-30). -/
structure TilesetConfig where
  identifier : String
  uid : Int
  tileGridSize : Int
  pxWid : Int
  pxHei : Int
  cWid : Int
  cHei : Int
deriving DecidableEq, Repr

/-- The single configuration installed by
`TilesetMapper.setupSunnyLandMapping` (src/js/tilesetMapper.js lines 16-30). -/
def sunnyLandConfig : TilesetConfig :=
  { identifier := "SunnyLand_by_Ansimuz", uid := 2, tileGridSize := 16,
    pxWid := 368, pxHei := 336, cWid := 23, cHei := 21 }

/-- Embeds `this.tilesetMappings.get(tilesetUid)` for a numeric uid: the map
holds the SunnyLand config under the numeric key `2` (the same object is
also stored under the string key, which a numeric uid can never hit). -/
def tilesetMappingsGet (tilesetUid : Int) : Option TilesetConfig :=
  if tilesetUid = 2 then some sunnyLandConfig else none

/-- Embeds the lookup `this.tilesetMappings.get(tilesetUid) || this.tilesetMappings.get("SunnyLand_by_Ansimuz")`
(src/js/tilesetMapper.js line 37): the fallback always succeeds, so the
`if (!tileset)` branch returning 0 at line 41 is dead code. -/
def lookupTilesetMapping (tilesetUid : Int) : TilesetConfig :=
  (tilesetMappingsGet tilesetUid).getD sunnyLandConfig

/-- The `workingMappings` table of `TilesetMapper.getGodotSourceFromAtlas`
(src/js/tilesetMapper.js lines 59-91), keyed by atlas cell. -/
def workingMappings : List ((Int × Int) × Int) :=
  [((2, 2), 262153), ((2, 4), 131072), ((0, 2), 262144), ((8, 6), 524294),
   ((2, 7), 131079), ((1, 7), 65543), ((3, 7), 196615), ((2, 0), 131072),
   ((6, 6), 6)]

/-- Embeds `TilesetMapper.getGodotSourceFromAtlas` (src/js/tilesetMapper.js
lines 57-102): hardcoded override table first, fallback `atlasX * 65536`. -/
def getGodotSourceFromAtlas (atlasX atlasY : Int) : Int :=
  match workingMappings.lookup (atlasX, atlasY) with
  | some v => v
  | none => atlasX * 65536

/-- Embeds `TilesetMapper.ldtkSourceToGodotSource` (src/js/tilesetMapper.js
lines 36-51). -/
def ldtkSourceToGodotSource (srcX srcY tilesetUid : Int) : Int :=
  getGodotSourceFromAtlas
    (srcX.fdiv (lookupTilesetMapping tilesetUid).tileGridSize)
    (srcY.fdiv (lookupTilesetMapping tilesetUid).tileGridSize)

/-- The `workingAlternatives` table of `TilesetMapper.getAlternativeTileId`
(src/js/tilesetMapper.js lines 188-199), keyed by atlas cell. -/
def workingAlternatives : List ((Int × Int) × Int) :=
  [((2, 2), 9), ((2, 4), 4), ((0, 2), 2), ((8, 6), 6), ((2, 7), 7),
   ((1, 7), 7), ((3, 7), 7), ((2, 0), 0), ((6, 6), 6)]

/-- Embeds `TilesetMapper.getAlternativeTileId` (src/js/tilesetMapper.js
lines 186-209).  Note the `flipFlags` parameter is never read by the
body, exactly as in the source: override table first, fallback
`Math.max(0, atlasY)`. -/
def getAlternativeTileId (flipFlags : FlipFlags) (atlasX atlasY : Int) : Int :=
  match workingAlternatives.lookup (atlasX, atlasY) with
  | some v => v
  | none => max 0 atlasY

/-- Result record of `TilesetMapper.handleRotatedTile`. -/
structure RotatedTile where
  atlasX : Int
  atlasY : Int
  flipH : Bool
  flipV : Bool
deriving DecidableEq, Repr

/-- Embeds `TilesetMapper.getRotatedTileMappings` (src/js/tilesetMapper.js
lines 256-266): returns an empty map. -/
def getRotatedTileMappings : List ((Int × Int × Bool × Bool) × RotatedTile) :=
  []

/-- Embeds `TilesetMapper.handleRotatedTile` (src/js/tilesetMapper.js
lines 229-251). -/
def handleRotatedTile (atlasX atlasY : Int) (flipFlags : FlipFlags) : RotatedTile :=
  if flipFlags.flipH || flipFlags.flipV then
    match getRotatedTileMappings.lookup (atlasX, atlasY, flipFlags.flipH, flipFlags.flipV) with
    | some r => r
    | none => { atlasX := atlasX, atlasY := atlasY, flipH := false, flipV := false }
  else
    { atlasX := atlasX, atlasY := atlasY, flipH := false, flipV := false }

/-- The tileset-definition record produced by `LDtkParser.getTilesets`
(ldtkParser.js lines 93-108); `cWid`/`cHei` stand for the source's
`__cWid`/`__cHei`. -/
structure TilesetDef where
  identifier : String
  uid : Int
  relPath : String
  pxWid : Int
  pxHei : Int
  tileGridSize : Int
  cWid : Int
  cHei : Int
deriving DecidableEq, Repr

/-- Result record of `TilesetMapper.validateTileset`. -/
structure ValidationResult where
  isValid : Bool
  message : Option String
deriving DecidableEq, Repr

/-- The `supportedTilesets` list of `TilesetMapper.validateTileset`
(src/js/tilesetMapper.js line 322). -/
def supportedTilesets : List String :=
  ["SunnyLand_by_Ansimuz"]

/-- Embeds `TilesetMapper.validateTileset` (src/js/tilesetMapper.js
lines 321-332). -/
def validateTileset (tilesetData : TilesetDef) : ValidationResult :=
  if supportedTilesets.contains tilesetData.identifier then
    { isValid := true, message := none }
  else
    { isValid := false,
      message := some ("Unsupported tileset: " ++ tilesetData.identifier ++
        ". Supported tilesets: " ++ String.intercalate ", " supportedTilesets) }

/-- Per-layer display configuration (`TilesetMapper.getLayerConfig`,
src/js/tilesetMapper.js lines 337-361). -/
structure LayerConfig where
  name : String
  zIndex : Int
  modulate : String
deriving DecidableEq, Repr

/-- Embeds `TilesetMapper.getLayerConfig` (src/js/tilesetMapper.js lines 337-361). -/
def getLayerConfig (layerIdentifier : String) : LayerConfig :=
  if layerIdentifier = "Bg_textures_baked" then
    { name := "Background", zIndex := 0, modulate := "Color(1, 1, 1, 1)" }
  else if layerIdentifier = "Wall_shadows_baked" then
    { name := "WallShadows", zIndex := 1, modulate := "Color(1, 1, 1, 0.17)" }
  else if layerIdentifier = "Collisions_baked" then
    { name := "Collisions", zIndex := 2, modulate := "Color(1, 1, 1, 1)" }
  else
    { name := layerIdentifier, zIndex := 0, modulate := "Color(1, 1, 1, 1)" }

/-- A raw `gridTiles[]` entry as read from the parsed LDtk JSON
(ldtkParser.js lines 128-152).  Fields can be missing, hence `Option`;
the float opacity field `a` is not modelled (floating point, unused by
everything specified). -/
structure RawGridTile where
  px : Option (Int × Int)
  src : Option (Int × Int)
  f : Option Int
  t : Option Int
  d : Option (List Int)
deriving DecidableEq, Repr

/-- A processed tile as built by `LDtkParser.processGridTiles`
(ldtkParser.js lines 135-152). -/
structure ProcessedTile where
  px : Int × Int
  src : Int × Int
  f : Int
  gridPos : Int × Int
  flipFlags : FlipFlags
  tileId : Option Int
  d : List Int
deriving DecidableEq, Repr

/-- The per-tile record construction of `LDtkParser.processGridTiles`
(ldtkParser.js lines 135-152).  `tile.t || null` maps a zero tile id to
null because `0` is falsy; `tile.d || []` keeps any present array
(arrays are truthy). -/
def mkProcessedTile (px src : Int × Int) (f : Int) (tile : RawGridTile) : ProcessedTile :=
  { px := px, src := src, f := f,
    gridPos := pixelToGrid px,
    flipFlags := extractFlipFlags f,
    tileId := match tile.t with
      | some v => if v = 0 then none else some v
      | none => none,
    d := tile.d.getD [] }

/-- The validation-and-collect loop of `LDtkParser.processGridTiles`
(ldtkParser.js lines 128-155): a tile missing `px`, `src` or `f`
(`!tile.px || !tile.src || tile.f === undefined`) is logged and skipped. -/
def collectProcessed : List RawGridTile → List ProcessedTile
  | [] => []
  | tile :: rest =>
    match tile.px, tile.src, tile.f with
    | some px, some src, some f => mkProcessedTile px src f tile :: collectProcessed rest
    | _, _, _ => collectProcessed rest

/-- A raw tile is kept by `processGridTiles` iff all three of `px`,
`src`, `f` are present. -/
def isWellFormedTile (tile : RawGridTile) : Bool :=
  tile.px.isSome && tile.src.isSome && tile.f.isSome

/-- The order imposed by the comparator of `LDtkParser.processGridTiles`
(ldtkParser.js lines 158-163): ascending grid Y, then ascending grid X. -/
def tileLe (a b : ProcessedTile) : Prop :=
  a.gridPos.2 < b.gridPos.2 ∨ (a.gridPos.2 = b.gridPos.2 ∧ a.gridPos.1 ≤ b.gridPos.1)

instance : DecidableRel tileLe := fun a b =>
  inferInstanceAs (Decidable (a.gridPos.2 < b.gridPos.2 ∨
    (a.gridPos.2 = b.gridPos.2 ∧ a.gridPos.1 ≤ b.gridPos.1)))

instance : IsTotal ProcessedTile tileLe :=
  ⟨by intro a b; unfold tileLe; omega⟩

instance : IsTrans ProcessedTile tileLe :=
  ⟨by intro a b c hab hbc; unfold tileLe at hab hbc ⊢; omega⟩

/-- Embeds `LDtkParser.processGridTiles` (ldtkParser.js lines 121-166).
`Array.prototype.sort` with the numeric comparator is a stable sort
w.r.t. the induced total preorder `tileLe`; `List.insertionSort` is the
stable sort on lists.  The `tilesetUid` parameter is unused by the
source body, exactly as here. -/
def processGridTiles (gridTiles : List RawGridTile) (tilesetUid : Int) : List ProcessedTile :=
  if gridTiles.isEmpty then []
  else List.insertionSort tileLe (collectProcessed gridTiles)

/-- A layer record as extracted by `LDtkParser.getTileLayers`
(ldtkParser.js lines 76-87); the float `opacity` field is not modelled. -/
structure ExtractedLayer where
  identifier : String
  type : String
  gridSize : Int
  tilesetDefUid : Int
  gridTiles : List RawGridTile
  autoLayerTiles : List RawGridTile
  visible : Bool
deriving DecidableEq, Repr

/-- A raw `layerInstances[]` entry of the parsed document (fields the
extractor reads; `__identifier` etc. are written without the dunder). -/
structure RawLayerInstance where
  identifier : String
  type : String
  gridSize : Int
  tilesetDefUid : Int
  gridTiles : Option (List RawGridTile)
  autoLayerTiles : Option (List RawGridTile)
  visible : Option Bool
deriving DecidableEq, Repr

/-- The per-layer mapping inside `LDtkParser.getTileLayers`
(ldtkParser.js lines 78-87): `layer.gridTiles || []`,
`layer.visible !== false`. -/
def extractLayer (layer : RawLayerInstance) : ExtractedLayer :=
  { identifier := layer.identifier, type := layer.type,
    gridSize := layer.gridSize, tilesetDefUid := layer.tilesetDefUid,
    gridTiles := layer.gridTiles.getD [],
    autoLayerTiles := layer.autoLayerTiles.getD [],
    visible := layer.visible != some false }

/-- A level of the parsed document (the fields the converter reads). -/
structure Level where
  identifier : String
  pxWid : Int
  pxHei : Int
  layerInstances : List RawLayerInstance
deriving DecidableEq, Repr

/-- The `targetLayers` list of `LDtkParser.getTileLayers`
(ldtkParser.js line 74). -/
def targetLayers : List String :=
  ["Collisions_baked", "Wall_shadows_baked", "Bg_textures_baked"]

/-- Embeds `LDtkParser.getTileLayers` (ldtkParser.js lines 67-88), applied to a
level value directly. -/
def getTileLayers (level : Level) : List ExtractedLayer :=
  (level.layerInstances.filter
    (fun layer => targetLayers.contains layer.identifier)).map extractLayer

/-- The conversion options object; an absent flag is `none`
(`undefined`). -/
structure ConversionOptions where
  includeCollisions : Option Bool
  includeShadows : Option Bool
  includeBackground : Option Bool
deriving DecidableEq, Repr

/-- The option `switch` of `LDtkParser.convertLevel`
(ldtkParser.js lines 181-192): each recognized identifier is kept unless
its flag is explicitly `false`; the `default` arm returns false. -/
def optionKeepsLayer (identifier : String) (options : ConversionOptions) : Bool :=
  if identifier = "Collisions_baked" then options.includeCollisions != some false
  else if identifier = "Wall_shadows_baked" then options.includeShadows != some false
  else if identifier = "Bg_textures_baked" then options.includeBackground != some false
  else false

/-- The `filteredLayers` stage of `LDtkParser.convertLevel`
(ldtkParser.js lines 180-192) composed with `getTileLayers`. -/
def filteredLayers (level : Level) (options : ConversionOptions) : List ExtractedLayer :=
  (getTileLayers level).filter (fun layer => optionKeepsLayer layer.identifier options)

/-- Embeds `LDtkParser.getTilesetByUid` (ldtkParser.js lines 113-116):
first tileset definition with the given uid. -/
def findTilesetByUid (tilesets : List TilesetDef) (uid : Int) : Option TilesetDef :=
  tilesets.find? (fun ts => ts.uid == uid)

/-- The per-layer conversion record built by `LDtkParser.convertLevel`
(ldtkParser.js lines 228-238); the float `opacity` field is not
modelled. -/
structure LayerData where
  identifier : String
  type : String
  gridSize : Int
  visible : Bool
  tileset : TilesetDef
  tiles : List ProcessedTile
  tileCount : Int
  config : LayerConfig
deriving DecidableEq, Repr

/-- The `layerData` record construction of `LDtkParser.convertLevel`
(ldtkParser.js lines 226-238). -/
def mkLayerData (layer : ExtractedLayer) (tileset : TilesetDef) : LayerData :=
  { identifier := layer.identifier, type := layer.type,
    gridSize := layer.gridSize, visible := layer.visible,
    tileset := tileset,
    tiles := processGridTiles layer.gridTiles layer.tilesetDefUid,
    tileCount := (processGridTiles layer.gridTiles layer.tilesetDefUid).length,
    config := getLayerConfig layer.identifier }

/-- The layer loop of `LDtkParser.convertLevel` (ldtkParser.js
lines 210-241): a layer whose tileset uid resolves to no definition is
skipped, a layer whose tileset fails `validateTileset` is skipped, every
other layer contributes its `layerData` record, in input order. -/
def convertLayers (tilesets : List TilesetDef) : List ExtractedLayer → List LayerData
  | [] => []
  | layer :: rest =>
    match findTilesetByUid tilesets layer.tilesetDefUid with
    | none => convertLayers tilesets rest
    | some tileset =>
      if (validateTileset tileset).isValid then
        mkLayerData layer tileset :: convertLayers tilesets rest
      else
        convertLayers tilesets rest

/-- Embeds `layer.tileset.tileGridSize || 16` in `TSCNGenerator.generateTileData`
(src/js/tscnGenerator.js line 188); `0` is the falsy integer case. -/
def effectiveGridSize (tileset : TilesetDef) : Int :=
  if tileset.tileGridSize = 0 then 16 else tileset.tileGridSize

/-- The per-tile triplet of `TSCNGenerator.generateTileData`
(src/js/tscnGenerator.js lines 183-207): encoded position, source via
`handleRotatedTile` and `ldtkSourceToGodotSource`, alternative via
`getAlternativeTileId`. -/
def generateTriplet (tileset : TilesetDef) (tile : ProcessedTile) : List Int :=
  let position := gridToGodotPosition tile.gridPos.1 tile.gridPos.2
  let tileGridSize := effectiveGridSize tileset
  let atlasX := tile.src.1.fdiv tileGridSize
  let atlasY := tile.src.2.fdiv tileGridSize
  let rotatedTile := handleRotatedTile atlasX atlasY tile.flipFlags
  let source := ldtkSourceToGodotSource (rotatedTile.atlasX * tileGridSize)
    (rotatedTile.atlasY * tileGridSize) tileset.uid
  let alternative := getAlternativeTileId tile.flipFlags rotatedTile.atlasX rotatedTile.atlasY
  [position, source, alternative]

/-- Embeds `TSCNGenerator.generateTileData` (src/js/tscnGenerator.js
lines 176-210): early return on an empty tile list, else one triplet per
tile, concatenated in order. -/
def generateTileData (layer : LayerData) : List Int :=
  if layer.tiles.isEmpty then []
  else layer.tiles.flatMap (generateTriplet layer.tileset)

/-- One step of filling a JS `Set` iterated in insertion order. -/
def jsSetInsert (acc : List String) (x : String) : List String :=
  if x ∈ acc then acc else acc ++ [x]

/-- Embeds `new Set(list)` for a list of strings, as the list of distinct
elements in first-occurrence order. -/
def jsSetOfList (l : List String) : List String :=
  l.foldl jsSetInsert []

/-- The load-step computation of `TSCNGenerator.generateHeader`
(src/js/tscnGenerator.js lines 77-85):
`uniqueTilesets.size * 2 + 1`. -/
def loadSteps (layers : List LayerData) : Nat :=
  (jsSetOfList (layers.map (fun layer => layer.tileset.identifier))).length * 2 + 1

/-- The SunnyLand tileset definition as it appears in `defs.tilesets[]`
of an input document (identifier, uid 2, grid size 16). -/
def sunnyTilesetDef : TilesetDef :=
  { identifier := "SunnyLand_by_Ansimuz", uid := 2,
    relPath := "SunnyLand_by_Ansimuz.png", pxWid := 368, pxHei := 336,
    tileGridSize := 16, cWid := 23, cHei := 21 }

/-- The two raw tiles of the round-trip scenario: pixel positions
`(0,0)` and `(16,16)`, `src=[0,0]` and `src=[16,16]`, `f=0`. -/
def c3RawTiles : List RawGridTile :=
  [ { px := some (0, 0), src := some (0, 0), f := some 0, t := none, d := none },
    { px := some (16, 16), src := some (16, 16), f := some 0, t := none, d := none } ]

/-- The single `Collisions_baked` layer of the round-trip scenario,
converted through the `convertLevel` record construction. -/
def c3Layer : LayerData :=
  mkLayerData
    { identifier := "Collisions_baked", type := "Tiles", gridSize := 16,
      tilesetDefUid := 2, gridTiles := c3RawTiles, autoLayerTiles := [],
      visible := true }
    sunnyTilesetDef

/-- A layer with tiles at pixel positions `(0,0)`, `(16,0)`, `(0,16)`
(grid size 16), for the Y-major ordering scenario. -/
def c4Layer : LayerData :=
  mkLayerData
    { identifier := "Collisions_baked", type := "Tiles", gridSize := 16,
      tilesetDefUid := 2,
      gridTiles :=
        [ { px := some (0, 0), src := some (0, 0), f := some 0, t := none, d := none },
          { px := some (16, 0), src := some (0, 0), f := some 0, t := none, d := none },
          { px := some (0, 16), src := some (0, 0), f := some 0, t := none, d := none } ],
      autoLayerTiles := [], visible := true }
    sunnyTilesetDef

/-- A processed tile with atlas cell `(3,3)` (outside both override
tables). -/
def c1Tile : ProcessedTile :=
  mkProcessedTile (0, 0) (48, 48) 0
    { px := some (0, 0), src := some (48, 48), f := some 0, t := none, d := none }

/-- An unsupported tileset definition (identifier differing from the
single supported one). -/
def classicTilesetDef : TilesetDef :=
  { identifier := "ClassicAutoTiles", uid := 7,
    relPath := "ClassicAutoTiles.png", pxWid := 256, pxHei := 256,
    tileGridSize := 16, cWid := 16, cHei := 16 }

/-- Tileset definitions of the layer-skipping scenario. -/
def c7Tilesets : List TilesetDef :=
  [sunnyTilesetDef, classicTilesetDef]

/-- First recognized layer of the skipping scenario (supported tileset). -/
def c7Layer1 : ExtractedLayer :=
  { identifier := "Collisions_baked", type := "Tiles", gridSize := 16,
    tilesetDefUid := 2, gridTiles := [], autoLayerTiles := [], visible := true }

/-- Second recognized layer of the skipping scenario (unsupported
tileset uid 7). -/
def c7Layer2 : ExtractedLayer :=
  { identifier := "Wall_shadows_baked", type := "Tiles", gridSize := 16,
    tilesetDefUid := 7, gridTiles := [], autoLayerTiles := [], visible := true }

/-- Third recognized layer of the skipping scenario (supported tileset). -/
def c7Layer3 : ExtractedLayer :=
  { identifier := "Bg_textures_baked", type := "Tiles", gridSize := 16,
    tilesetDefUid := 2, gridTiles := [], autoLayerTiles := [], visible := true }

/-- A two-layer list sharing one tileset identifier, for the load-steps
witness. -/
def c8Layers : List LayerData :=
  [ mkLayerData c7Layer1 sunnyTilesetDef,
    mkLayerData c7Layer3 sunnyTilesetDef ]

/-- Raw tile at pixel position `(33, 7)` for the fixed-grid witness. -/
def c10Raw : RawGridTile :=
  { px := some (33, 7), src := some (0, 0), f := some 0, t := none, d := none }

/-- A layer declaring grid size 32 whose single tile is still placed on
the 16-pixel grid. -/
def c10Layer : ExtractedLayer :=
  { identifier := "Collisions_baked", type := "Tiles", gridSize := 32,
    tilesetDefUid := 2, gridTiles := [c10Raw], autoLayerTiles := [],
    visible := true }

/-- The processed form of `c10Raw`. -/
def c10Tile : ProcessedTile :=
  mkProcessedTile (33, 7) (0, 0) 0 c10Raw

theorem handleRotatedTile_id (x y : Int) (fl : FlipFlags) :
    handleRotatedTile x y fl =
      { atlasX := x, atlasY := y, flipH := false, flipV := false } := by
  unfold handleRotatedTile
  split <;> rfl

theorem lookupTilesetMapping_tileGridSize (uid : Int) :
    (lookupTilesetMapping uid).tileGridSize = 16 := by
  unfold lookupTilesetMapping tilesetMappingsGet
  split <;> rfl

theorem ldtkSourceToGodotSource_mul16 (x y uid : Int) :
    ldtkSourceToGodotSource (x * 16) (y * 16) uid = getGodotSourceFromAtlas x y := by
  unfold ldtkSourceToGodotSource
  rw [lookupTilesetMapping_tileGridSize,
    Int.mul_fdiv_cancel _ (by decide : (16 : Int) ≠ 0),
    Int.mul_fdiv_cancel _ (by decide : (16 : Int) ≠ 0)]

/-- C1 counterexample: the claim says the encoded source always equals
`atlasX * 65536`, in particular `131072` for `src=[32,32]` (atlas cell
`(2,2)`), but `getGodotSourceFromAtlas` consults its hardcoded override
table first and returns `262153` for that cell. -/
theorem source_override_cex :
    ldtkSourceToGodotSource 32 32 2 = 262153 ∧
    ldtkSourceToGodotSource 32 32 2 ≠ 131072 := by
  decide

/-- C1 (amended): for every tile whose atlas cell is outside the
hardcoded `workingMappings` override table, the source component of the
output triplet equals `atlasX * 65536` with
`atlasX = floor(srcX / tileGridSize)`; cells inside the table get the
hardcoded value instead (so atlas `(2,2)` is encoded `262153`, not
`131072`). -/
theorem source_fallback_encoding (ts : TilesetDef) (tile : ProcessedTile)
    (hg : ts.tileGridSize = 16)
    (hl : workingMappings.lookup (tile.src.1.fdiv 16, tile.src.2.fdiv 16) = none) :
    (generateTriplet ts tile)[1]? = some (tile.src.1.fdiv 16 * 65536) := by
  have hgs : effectiveGridSize ts = 16 := by
    simp [effectiveGridSize, hg]
  simp only [generateTriplet, hgs, handleRotatedTile_id, ldtkSourceToGodotSource_mul16]
  simp [getGodotSourceFromAtlas, hl]

theorem source_fallback_encoding_witness :
    sunnyTilesetDef.tileGridSize = 16 ∧
    workingMappings.lookup (c1Tile.src.1.fdiv 16, c1Tile.src.2.fdiv 16) = none ∧
    (generateTriplet sunnyTilesetDef c1Tile)[1]? = some 196608 :=
  ⟨by decide, by decide,
    (source_fallback_encoding sunnyTilesetDef c1Tile (by decide) (by decide)).trans
      (by decide)⟩

theorem workingAlternatives_lookup_bound (p : Int × Int) (v : Int)
    (h : workingAlternatives.lookup p = some v) : 0 ≤ v ∧ v ≤ 9 := by
  simp only [workingAlternatives, List.lookup_cons, List.lookup_nil] at h
  repeat' split at h
  all_goals simp_all
  all_goals omega

/-- C2 counterexample: the claim says bit 28 of the alternative is set
iff `flipH`; the code ignores the flip flags entirely, so for
`flipH = true` at atlas cell `(0,0)` (atlas row 0) it returns `0`,
whose bit 28 is clear. -/
theorem alternative_flip_bits_cex :
    getAlternativeTileId { flipH := true, flipV := false } 0 0 = 0 ∧
    (getAlternativeTileId { flipH := true, flipV := false } 0 0).toNat.testBit 28
      = false := by
  decide

/-- C2 (amended): the flip flags have no effect on the alternative
integer; for every atlas row `r ∈ [0, 65535]` bits 28, 29 and 30 are
never set (whatever the flags), and for atlas cells outside the
hardcoded `workingAlternatives` table the value equals `r`, so its low
16 bits equal `r`. -/
theorem alternative_ignores_flips (h v : Bool) (x r : Int)
    (h0 : 0 ≤ r) (h1 : r ≤ 65535) :
    getAlternativeTileId { flipH := h, flipV := v } x r
      = getAlternativeTileId { flipH := false, flipV := false } x r ∧
    (getAlternativeTileId { flipH := h, flipV := v } x r).toNat.testBit 28 = false ∧
    (getAlternativeTileId { flipH := h, flipV := v } x r).toNat.testBit 29 = false ∧
    (getAlternativeTileId { flipH := h, flipV := v } x r).toNat.testBit 30 = false ∧
    (workingAlternatives.lookup (x, r) = none →
      getAlternativeTileId { flipH := h, flipV := v } x r = r) := by
  have hlt : (getAlternativeTileId { flipH := h, flipV := v } x r).toNat
      < 268435456 := by
    unfold getAlternativeTileId
    cases hm : workingAlternatives.lookup (x, r) with
    | none =>
      simp only [hm]
      rw [max_eq_right h0]
      omega
    | some w =>
      simp only [hm]
      have hb := workingAlternatives_lookup_bound (x, r) w hm
      omega
  have h28 : (getAlternativeTileId { flipH := h, flipV := v } x r).toNat
      < 2 ^ 28 := by
    have : (268435456 : Nat) = 2 ^ 28 := by norm_num
    omega
  have h29 : (getAlternativeTileId { flipH := h, flipV := v } x r).toNat
      < 2 ^ 29 := lt_trans h28 (by norm_num)
  have h30 : (getAlternativeTileId { flipH := h, flipV := v } x r).toNat
      < 2 ^ 30 := lt_trans h28 (by norm_num)
  refine ⟨rfl, Nat.testBit_lt_two_pow h28, Nat.testBit_lt_two_pow h29,
    Nat.testBit_lt_two_pow h30, ?_⟩
  intro hm
  unfold getAlternativeTileId
  simp only [hm]
  exact max_eq_right h0

theorem alternative_ignores_flips_witness :
    (0 : Int) ≤ 3 ∧ (3 : Int) ≤ 65535 ∧
    (getAlternativeTileId { flipH := true, flipV := true } 5 3
      = getAlternativeTileId { flipH := false, flipV := false } 5 3 ∧
    (getAlternativeTileId { flipH := true, flipV := true } 5 3).toNat.testBit 28 = false ∧
    (getAlternativeTileId { flipH := true, flipV := true } 5 3).toNat.testBit 29 = false ∧
    (getAlternativeTileId { flipH := true, flipV := true } 5 3).toNat.testBit 30 = false ∧
    (workingAlternatives.lookup (5, 3) = none →
      getAlternativeTileId { flipH := true, flipV := true } 5 3 = 3)) :=
  ⟨by decide, by decide,
    alternative_ignores_flips true true 5 3 (by decide) (by decide)⟩

/-- C3 counterexample: for the round-trip scenario (one
`Collisions_baked` layer, tiles at `(0,0)` and `(16,16)` with
`src=[0,0]`, `src=[16,16]`, `f=0`) the generated `layer_0/tile_data`
content is not the claimed `[0, 0, 0, 65537, 65536, 16]`: the
alternative of atlas row 1 is `1`, not `16`. -/
theorem roundtrip_tile_data_cex :
    generateTileData c3Layer ≠ [0, 0, 0, 65537, 65536, 16] := by
  decide

/-- C3 (amended): the round-trip scenario produces exactly the 6
integers `[0, 0, 0, 65537, 65536, 1]` (position `(1,1)` encodes to
`65537`, source atlas column 1 to `65536`, and the alternative for atlas
row 1 is `1`). -/
theorem roundtrip_tile_data :
    generateTileData c3Layer = [0, 0, 0, 65537, 65536, 1] := by
  decide

/-- C4: the emitted tile sequence of every layer is sorted ascending by
`(grid_y, grid_x)` (Y-major), and the layer with tiles at pixel
positions `(0,0)`, `(16,0)`, `(0,16)` yields triplets whose positions
`0`, `1`, `65536` decode to grid cells `(0,0)`, `(1,0)`, `(0,1)` in
exactly that order. -/
theorem tile_order_sorted :
    (∀ (gridTiles : List RawGridTile) (tilesetUid : Int),
      List.Sorted tileLe (processGridTiles gridTiles tilesetUid)) ∧
    generateTileData c4Layer = [0, 0, 0, 1, 0, 0, 65536, 0, 0] := by
  constructor
  · intro gridTiles tilesetUid
    unfold processGridTiles
    split
    · exact List.sorted_nil
    · exact List.sorted_insertionSort tileLe _
  · decide

/-- C5: for grid coordinates with `0 ≤ gx < 65536`, `0 ≤ gy` and the
encoded position inside the signed 32-bit range, decoding
`gy * 65536 + gx` via `(pos % 65536, pos / 65536)` recovers `(gx, gy)`
exactly. -/
theorem position_roundtrip (gx gy : Int) (hx0 : 0 ≤ gx) (hx : gx < 65536)
    (hy0 : 0 ≤ gy) (hbound : gy * 65536 + gx < 2147483648) :
    gridToGodotPosition gx gy % 65536 = gx ∧
    gridToGodotPosition gx gy / 65536 = gy := by
  unfold gridToGodotPosition
  omega

theorem position_roundtrip_witness :
    (0 : Int) ≤ 5 ∧ (5 : Int) < 65536 ∧ (0 : Int) ≤ 7 ∧
    (7 : Int) * 65536 + 5 < 2147483648 ∧
    gridToGodotPosition 5 7 % 65536 = 5 ∧
    gridToGodotPosition 5 7 / 65536 = 7 :=
  ⟨by decide, by decide, by decide, by decide,
    (position_roundtrip 5 7 (by decide) (by decide) (by decide) (by decide)).1,
    (position_roundtrip 5 7 (by decide) (by decide) (by decide) (by decide)).2⟩

theorem collectProcessed_length (l : List RawGridTile) :
    (collectProcessed l).length = l.countP isWellFormedTile := by
  induction l with
  | nil => rfl
  | cons tile rest ih =>
    obtain ⟨px, src, f, tid, dd⟩ := tile
    cases px <;> cases src <;> cases f <;>
      simp [collectProcessed, isWellFormedTile, List.countP_cons, ih]

theorem flatMap_triplet_length (ts : TilesetDef) (tiles : List ProcessedTile) :
    (tiles.flatMap (generateTriplet ts)).length = 3 * tiles.length := by
  induction tiles with
  | nil => rfl
  | cons t rest ih =>
    simp [generateTriplet, ih]
    omega

theorem processGridTiles_length (gridTiles : List RawGridTile) (uid : Int) :
    (processGridTiles gridTiles uid).length = gridTiles.countP isWellFormedTile := by
  unfold processGridTiles
  split
  · rename_i hemp
    cases gridTiles with
    | nil => rfl
    | cons a l => simp at hemp
  · rw [List.length_insertionSort]
    exact collectProcessed_length _

/-- C6: malformed tile records (missing `px`, `src` or `f`) are skipped
without failing the layer, and each remaining well-formed tile
contributes exactly 3 integers, so the emitted `tile_data` array has
length `3 ×` the number of well-formed tiles. -/
theorem tile_data_length (layer : ExtractedLayer) (ts : TilesetDef) :
    (generateTileData (mkLayerData layer ts)).length
      = 3 * layer.gridTiles.countP isWellFormedTile := by
  have hlen := processGridTiles_length layer.gridTiles layer.tilesetDefUid
  unfold generateTileData mkLayerData
  split
  · rename_i hemp
    have hzero : (processGridTiles layer.gridTiles layer.tilesetDefUid).length = 0 := by
      cases hl2 : processGridTiles layer.gridTiles layer.tilesetDefUid with
      | nil => rfl
      | cons a l => rw [hl2] at hemp; simp at hemp
    simp only [List.length_nil]
    omega
  · rw [flatMap_triplet_length, hlen]

/-- C7: tileset validation succeeds exactly for the single identifier
`SunnyLand_by_Ansimuz`, and in a level whose middle recognized layer
names a tileset with any other identifier, exactly that layer is
dropped by the conversion loop while the two valid layers still appear,
in order. -/
theorem validate_tileset_skip :
    (∀ ts : TilesetDef,
      (validateTileset ts).isValid = true ↔ ts.identifier = "SunnyLand_by_Ansimuz") ∧
    (∀ (tss : List TilesetDef) (l1 l2 l3 : ExtractedLayer) (t1 t2 t3 : TilesetDef),
      findTilesetByUid tss l1.tilesetDefUid = some t1 →
      t1.identifier = "SunnyLand_by_Ansimuz" →
      findTilesetByUid tss l2.tilesetDefUid = some t2 →
      t2.identifier ≠ "SunnyLand_by_Ansimuz" →
      findTilesetByUid tss l3.tilesetDefUid = some t3 →
      t3.identifier = "SunnyLand_by_Ansimuz" →
      convertLayers tss [l1, l2, l3] = [mkLayerData l1 t1, mkLayerData l3 t3]) := by
  constructor
  · intro ts
    unfold validateTileset
    split
    · rename_i hc
      have hid : ts.identifier = "SunnyLand_by_Ansimuz" := by
        simpa [supportedTilesets] using hc
      simp [hid]
    · rename_i hc
      have hid : ts.identifier ≠ "SunnyLand_by_Ansimuz" := by
        simpa [supportedTilesets] using hc
      simp [hid]
  · intro tss l1 l2 l3 t1 t2 t3 h1 e1 h2 e2 h3 e3
    have v1 : (validateTileset t1).isValid = true := by
      simp [validateTileset, supportedTilesets, e1]
    have v2 : (validateTileset t2).isValid = false := by
      simp [validateTileset, supportedTilesets, e2]
    have v3 : (validateTileset t3).isValid = true := by
      simp [validateTileset, supportedTilesets, e3]
    simp [convertLayers, h1, h2, h3, v1, v2, v3]

theorem validate_tileset_skip_witness :
    findTilesetByUid c7Tilesets c7Layer1.tilesetDefUid = some sunnyTilesetDef ∧
    findTilesetByUid c7Tilesets c7Layer2.tilesetDefUid = some classicTilesetDef ∧
    findTilesetByUid c7Tilesets c7Layer3.tilesetDefUid = some sunnyTilesetDef ∧
    classicTilesetDef.identifier ≠ "SunnyLand_by_Ansimuz" ∧
    convertLayers c7Tilesets [c7Layer1, c7Layer2, c7Layer3]
      = [mkLayerData c7Layer1 sunnyTilesetDef, mkLayerData c7Layer3 sunnyTilesetDef] :=
  ⟨by decide, by decide, by decide, by decide,
    validate_tileset_skip.2 c7Tilesets c7Layer1 c7Layer2 c7Layer3
      sunnyTilesetDef classicTilesetDef sunnyTilesetDef
      (by decide) (by decide) (by decide) (by decide) (by decide) (by decide)⟩

theorem jsSet_foldl (l : List String) :
    ∀ acc : List String, acc.Nodup →
      (l.foldl jsSetInsert acc).Nodup ∧
      (l.foldl jsSetInsert acc).toFinset = acc.toFinset ∪ l.toFinset := by
  induction l with
  | nil => intro acc hacc; simp [hacc]
  | cons x rest ih =>
    intro acc hacc
    have hins : (jsSetInsert acc x).Nodup := by
      unfold jsSetInsert
      split
      · exact hacc
      · rename_i hx
        simp [List.nodup_append, hacc, hx]
    have hset : (jsSetInsert acc x).toFinset = insert x acc.toFinset := by
      unfold jsSetInsert
      split
      · rename_i hx
        rw [Finset.insert_eq_self.mpr (List.mem_toFinset.mpr hx)]
      · ext a
        simp [List.toFinset_append, or_comm]
    obtain ⟨hn, ht⟩ := ih (jsSetInsert acc x) hins
    refine ⟨hn, ?_⟩
    rw [List.foldl_cons, ht, hset]
    ext a
    simp

theorem jsSetOfList_length (l : List String) :
    (jsSetOfList l).length = l.toFinset.card := by
  obtain ⟨hn, ht⟩ := jsSet_foldl l [] (by simp)
  unfold jsSetOfList
  calc (l.foldl jsSetInsert []).length
      = (l.foldl jsSetInsert []).toFinset.card :=
        (List.toFinset_card_of_nodup hn).symm
    _ = l.toFinset.card := by rw [ht]; simp

/-- C8: for every non-empty layer list, the declared load-step count is
2 times the number of distinct tileset identifiers among the layers,
plus 1. -/
theorem header_load_steps (layers : List LayerData) (hne : layers ≠ []) :
    loadSteps layers
      = 2 * (layers.map (fun layer => layer.tileset.identifier)).toFinset.card + 1 := by
  unfold loadSteps
  rw [jsSetOfList_length]
  omega

theorem header_load_steps_witness :
    c8Layers ≠ [] ∧
    loadSteps c8Layers
      = 2 * (c8Layers.map (fun layer => layer.tileset.identifier)).toFinset.card + 1 :=
  ⟨by decide, header_load_steps c8Layers (by decide)⟩

/-- C9: a layer is selected iff its identifier is one of the three
recognized ones and the corresponding inclusion option is not explicitly
`false` (an absent option counts as included). -/
theorem select_layers_iff (level : Level) (options : ConversionOptions)
    (d : ExtractedLayer) :
    d ∈ filteredLayers level options ↔
      ∃ raw ∈ level.layerInstances, d = extractLayer raw ∧
        ((d.identifier = "Collisions_baked" ∧ options.includeCollisions ≠ some false) ∨
         (d.identifier = "Wall_shadows_baked" ∧ options.includeShadows ≠ some false) ∨
         (d.identifier = "Bg_textures_baked" ∧ options.includeBackground ≠ some false)) := by
  unfold filteredLayers getTileLayers
  rw [List.mem_filter]
  constructor
  · rintro ⟨hmem, hkeep⟩
    rw [List.mem_map] at hmem
    obtain ⟨raw, hmemfil, rfl⟩ := hmem
    rw [List.mem_filter] at hmemfil
    obtain ⟨hraw, htgt⟩ := hmemfil
    refine ⟨raw, hraw, rfl, ?_⟩
    unfold optionKeepsLayer at hkeep
    split at hkeep
    · rename_i hc
      exact Or.inl ⟨hc, by simpa using hkeep⟩
    · split at hkeep
      · rename_i hc
        exact Or.inr (Or.inl ⟨hc, by simpa using hkeep⟩)
      · split at hkeep
        · rename_i hc
          exact Or.inr (Or.inr ⟨hc, by simpa using hkeep⟩)
        · exact absurd hkeep (by simp)
  · rintro ⟨raw, hraw, rfl, hcase⟩
    simp only [extractLayer] at hcase
    refine ⟨List.mem_map.mpr ⟨raw, List.mem_filter.mpr ⟨hraw, ?_⟩, rfl⟩, ?_⟩
    · rcases hcase with ⟨hi, _⟩ | ⟨hi, _⟩ | ⟨hi, _⟩ <;> simp [targetLayers, hi]
    · unfold optionKeepsLayer
      simp only [extractLayer]
      rcases hcase with ⟨hi, ho⟩ | ⟨hi, ho⟩ | ⟨hi, ho⟩ <;> simp [hi, ho]

theorem collectProcessed_gridPos (l : List RawGridTile) (t : ProcessedTile)
    (ht : t ∈ collectProcessed l) :
    t.gridPos = (t.px.1.fdiv 16, t.px.2.fdiv 16) := by
  induction l with
  | nil => simp [collectProcessed] at ht
  | cons tile rest ih =>
    obtain ⟨px, src, f, tid, dd⟩ := tile
    cases px <;> cases src <;> cases f <;>
      simp only [collectProcessed, List.mem_cons] at ht
    all_goals
      first
      | exact ih ht
      | (rcases ht with rfl | ht
         exacts [by simp [mkProcessedTile, pixelToGrid], ih ht])

/-- C10: the grid position of every processed tile is the pixel position
floor-divided by the constant 16, regardless of the layer's declared
grid size (and of the tileset's `tileGridSize`), because
`processGridTiles` calls `pixelToGrid` with its default argument. -/
theorem grid_position_fixed16 (layer : ExtractedLayer) (t : ProcessedTile)
    (ht : t ∈ processGridTiles layer.gridTiles layer.tilesetDefUid) :
    t.gridPos = (t.px.1.fdiv 16, t.px.2.fdiv 16) := by
  unfold processGridTiles at ht
  split at ht
  · simp at ht
  · rw [List.mem_insertionSort] at ht
    exact collectProcessed_gridPos layer.gridTiles t ht

theorem grid_position_fixed16_witness :
    c10Tile ∈ processGridTiles c10Layer.gridTiles c10Layer.tilesetDefUid ∧
    c10Tile.gridPos = (c10Tile.px.1.fdiv 16, c10Tile.px.2.fdiv 16) :=
  ⟨by decide, grid_position_fixed16 c10Layer c10Tile (by decide)⟩
